import Mathlib

/-!
# OpenCL bridge demo: host-side session lifecycle

A shallow embedding of `src/OpenCLBridge.cpp` (constructor, destructor, `init`,
`loadSource`, `loadKernel`, `runVectorAdd`).

The OpenCL driver is the environment.  It is a state machine `Driver σ α` that
answers each API call with a `Resp`; the bridge code is written against an
arbitrary driver, and every call it makes is recorded, with the answer it got,
in a trace.  The float type is the parameter `α`; the only operation on it is
the addition performed by the kernel.

Pointers are natural numbers, `0` is `nullptr`.  `size_t` is 64 bits wide and
`int` is 32 bits wide (LP64).
-/

namespace CLBridge

/-! ## OpenCL API vocabulary (values of `CL/cl.h`) -/

abbrev Handle := Nat

abbrev cl_int := Int

def CL_SUCCESS : cl_int := 0
def CL_DEVICE_NOT_FOUND : cl_int := -1
def CL_OUT_OF_RESOURCES : cl_int := -5
def CL_OUT_OF_HOST_MEMORY : cl_int := -6
def CL_INVALID_MEM_OBJECT : cl_int := -38
def CL_INVALID_KERNEL_ARGS : cl_int := -52
def CL_INVALID_WORK_GROUP_SIZE : cl_int := -54
def CL_INVALID_BUFFER_SIZE : cl_int := -61
def CL_INVALID_GLOBAL_WORK_SIZE : cl_int := -63

def CL_TRUE : Nat := 1
def CL_DEVICE_TYPE_CPU : Nat := 2
def CL_DEVICE_TYPE_GPU : Nat := 4
def CL_MEM_WRITE_ONLY : Nat := 2
def CL_MEM_READ_ONLY : Nat := 4
def CL_DEVICE_NAME : Nat := 0x102B
def CL_PROGRAM_BUILD_LOG : Nat := 0x1183

/-! ## Machine integers -/

/-- Number of values of a `size_t`. -/
def SIZE_T_RANGE : Nat := 2 ^ 64

/-- Largest value of an `int`. -/
def INT_MAX : Nat := 2 ^ 31 - 1

def sizeof_float : Nat := 4
def sizeof_int : Nat := 4
def sizeof_cl_mem : Nat := 8

/-- The conversion `(int)n` of a `size_t`: the low 32 bits, read in two's complement. -/
def toInt32 (n : Nat) : Int :=
  if n % 2 ^ 32 < 2 ^ 31 then ((n % 2 ^ 32 : Nat) : Int) else ((n % 2 ^ 32 : Nat) : Int) - 2 ^ 32

/-! ## Driver calls, answers and the recorded world -/

/-- Value passed to `clSetKernelArg`: the pointee of `arg_value`. -/
inductive ArgValue where
  | mem (h : Handle)
  | int32 (v : Int)
  deriving DecidableEq, Repr

/-- The driver calls made by the bridge, with the arguments that are not `NULL`/`0`
constants.  For an out-parameter (`&platform_id`, `&device_id`) the call carries the
current content of the pointee; for a host source buffer it carries the elements
the byte count covers. -/
inductive Call (α : Type) where
  | clGetPlatformIDs (num_entries : Nat) (platforms : Handle)
  | clGetDeviceIDs (platform : Handle) (device_type : Nat) (num_entries : Nat) (devices : Handle)
  | clGetDeviceInfo (device : Handle) (param_name : Nat) (size : Nat)
  | clCreateContext (num_devices : Nat) (device : Handle)
  | clCreateCommandQueue (context : Handle) (device : Handle) (properties : Nat)
  | clCreateProgramWithSource (context : Handle) (count : Nat) (source : String)
  | clBuildProgram (program : Handle) (num_devices : Nat) (device : Handle)
  | clGetProgramBuildInfo (program : Handle) (device : Handle) (param_name : Nat) (size : Nat)
  | clCreateKernel (program : Handle) (kernel_name : String)
  | clCreateBuffer (context : Handle) (flags : Nat) (size : Nat)
  | clEnqueueWriteBuffer (queue : Handle) (buffer : Handle) (blocking : Nat) (offset : Nat)
      (size : Nat) (data : List α)
  | clSetKernelArg (kernel : Handle) (arg_index : Nat) (arg_size : Nat) (arg_value : ArgValue)
  | clEnqueueNDRangeKernel (queue : Handle) (kernel : Handle) (work_dim : Nat)
      (global_work_size : Nat) (local_work_size : Nat)
  | clEnqueueReadBuffer (queue : Handle) (buffer : Handle) (blocking : Nat) (offset : Nat)
      (size : Nat)
  | clReleaseMemObject (memobj : Handle)
  | clReleaseKernel (kernel : Handle)
  | clReleaseProgram (program : Handle)
  | clReleaseCommandQueue (queue : Handle)
  | clReleaseContext (context : Handle)
  deriving DecidableEq, Repr

/-- What a driver call hands back: `err` is the return code (or the value stored
through `errcode_ret`), `handle` the returned object (or the new content of the
out-parameter), `data` the floats copied into host memory, `text` the characters
copied into a host character buffer. -/
structure Resp (α : Type) where
  err : cl_int
  handle : Handle
  data : List α
  text : String
  deriving DecidableEq, Repr

/-- A driver: its state `σ` and its answer to each call. -/
abbrev Driver (σ α : Type) := σ → Call α → Resp α × σ

/-- One recorded driver call with the answer it got. -/
structure Event (α : Type) where
  call : Call α
  resp : Resp α
  deriving DecidableEq, Repr

/-- The world the bridge runs in: the driver state, the driver calls made so far
and the lines written to `std::cout`/`std::cerr`. -/
structure World (σ α : Type) where
  dev : σ
  trace : List (Event α)
  diag : List String

variable {σ α : Type}

/-- Perform one driver call and record it. -/
def call (drv : Driver σ α) (c : Call α) (w : World σ α) : Resp α × World σ α :=
  ((drv w.dev c).1,
    { dev := (drv w.dev c).2, trace := w.trace ++ [⟨c, (drv w.dev c).1⟩], diag := w.diag })

/-- Write one line to the diagnostic stream. -/
def print (line : String) (w : World σ α) : World σ α :=
  { dev := w.dev, trace := w.trace, diag := w.diag ++ [line] }

/-- Copy `src` over the front of the host array `dst`; the array keeps its size. -/
def hostCopy (dst src : List α) : List α :=
  src.take dst.length ++ dst.drop src.length

/-- The driver calls made between the world `before` and the later world `after`. -/
def callsSince (before after : World σ α) : List (Call α) :=
  (after.trace.drop before.trace.length).map Event.call

/-- The recorded calls, with their answers, made between `before` and `after`. -/
def eventsSince (before after : World σ α) : List (Event α) :=
  after.trace.drop before.trace.length

/-! ## The session object -/

/-- The data members of `class OpenCLBridge`. -/
structure OpenCLBridge where
  platform_id : Handle
  device_id : Handle
  context : Handle
  command_queue : Handle
  program : Handle
  kernel : Handle
  deriving DecidableEq, Repr

namespace OpenCLBridge

/-- Constructor `OpenCLBridge::OpenCLBridge()`: every member is `nullptr`. -/
def new : OpenCLBridge :=
  { platform_id := 0, device_id := 0, context := 0, command_queue := 0, program := 0,
    kernel := 0 }

/-- Destructor `OpenCLBridge::~OpenCLBridge()`. -/
def destructor (drv : Driver σ α) (self : OpenCLBridge) (w : World σ α) : World σ α :=
  let w := if self.kernel ≠ 0 then (call drv (Call.clReleaseKernel self.kernel) w).2 else w
  let w := if self.program ≠ 0 then (call drv (Call.clReleaseProgram self.program) w).2 else w
  let w := if self.command_queue ≠ 0 then
    (call drv (Call.clReleaseCommandQueue self.command_queue) w).2 else w
  let w := if self.context ≠ 0 then (call drv (Call.clReleaseContext self.context) w).2 else w
  w

/-- Method `OpenCLBridge::init()`; returns the result, the updated object and the world. -/
def init (drv : Driver σ α) (self : OpenCLBridge) (w : World σ α) :
    Bool × OpenCLBridge × World σ α :=
  let p := call drv (Call.clGetPlatformIDs 1 self.platform_id) w
  let self := { self with platform_id := p.1.handle }
  if p.1.err ≠ CL_SUCCESS then
    (false, self, print "Error getting platform ID." p.2)
  else
    let g := call drv (Call.clGetDeviceIDs self.platform_id CL_DEVICE_TYPE_GPU 1 self.device_id) p.2
    let self := { self with device_id := g.1.handle }
    let c :=
      if g.1.err ≠ CL_SUCCESS then
        call drv (Call.clGetDeviceIDs self.platform_id CL_DEVICE_TYPE_CPU 1 self.device_id)
          (print "Error getting GPU device. Trying CPU..." g.2)
      else g
    let self := { self with device_id := c.1.handle }
    let i := call drv (Call.clGetDeviceInfo self.device_id CL_DEVICE_NAME 128) c.2
    let w := print ("[Bridge] Initialized on device: " ++ i.1.text) i.2
    let x := call drv (Call.clCreateContext 1 self.device_id) w
    let self := { self with context := x.1.handle }
    let q := call drv (Call.clCreateCommandQueue self.context self.device_id 0) x.2
    let self := { self with command_queue := q.1.handle }
    (true, self, q.2)

/-- Method `OpenCLBridge::loadSource`; `fs` is the file system, `none` for a file
that cannot be opened. -/
def loadSource (fs : String → Option String) (filePath : String) (w : World σ α) :
    String × World σ α :=
  match fs filePath with
  | none => ("", print ("Failed to open kernel file: " ++ filePath) w)
  | some text => (text, w)

/-- Method `OpenCLBridge::loadKernel`. -/
def loadKernel (drv : Driver σ α) (fs : String → Option String) (self : OpenCLBridge)
    (filePath kernelName : String) (w : World σ α) : Bool × OpenCLBridge × World σ α :=
  let s := loadSource fs filePath w
  if s.1.isEmpty then (false, self, s.2)
  else
    let p := call drv (Call.clCreateProgramWithSource self.context 1 s.1) s.2
    let self := { self with program := p.1.handle }
    let b := call drv (Call.clBuildProgram self.program 1 self.device_id) p.2
    if b.1.err ≠ CL_SUCCESS then
      let l := call drv
        (Call.clGetProgramBuildInfo self.program self.device_id CL_PROGRAM_BUILD_LOG 2048) b.2
      (false, self, print ("Build Log: " ++ l.1.text) l.2)
    else
      let k := call drv (Call.clCreateKernel self.program kernelName) b.2
      (decide (k.1.err = CL_SUCCESS), { self with kernel := k.1.handle }, k.2)

/-- Lines 97 to 99 of `runVectorAdd`: the launch width for `n` elements. -/
def globalSize (n : Nat) : Nat :=
  let localSize := 64
  if n % localSize ≠ 0 then ((n / localSize + 1) * localSize) % SIZE_T_RANGE else n

/-- Method `OpenCLBridge::runVectorAdd`; returns the result, the content of
`outputC` afterwards and the world.  A `std::vector<float>` occupies four bytes of address
space per element, so `inputA.size()` is the length of the list without reduction. -/
def runVectorAdd (drv : Driver σ α) (self : OpenCLBridge) (inputA inputB outputC : List α)
    (w : World σ α) : Bool × List α × World σ α :=
  let n := inputA.length
  let bytes := (n * sizeof_float) % SIZE_T_RANGE
  let a := call drv (Call.clCreateBuffer self.context CL_MEM_READ_ONLY bytes) w
  let b := call drv (Call.clCreateBuffer self.context CL_MEM_READ_ONLY bytes) a.2
  let c := call drv (Call.clCreateBuffer self.context CL_MEM_WRITE_ONLY bytes) b.2
  let d_a := a.1.handle
  let d_b := b.1.handle
  let d_c := c.1.handle
  let wa := call drv (Call.clEnqueueWriteBuffer self.command_queue d_a CL_TRUE 0 bytes
    (inputA.take (bytes / sizeof_float))) c.2
  let wb := call drv (Call.clEnqueueWriteBuffer self.command_queue d_b CL_TRUE 0 bytes
    (inputB.take (bytes / sizeof_float))) wa.2
  let argN := toInt32 n
  let s0 := call drv (Call.clSetKernelArg self.kernel 0 sizeof_cl_mem (ArgValue.mem d_a)) wb.2
  let s1 := call drv (Call.clSetKernelArg self.kernel 1 sizeof_cl_mem (ArgValue.mem d_b)) s0.2
  let s2 := call drv (Call.clSetKernelArg self.kernel 2 sizeof_cl_mem (ArgValue.mem d_c)) s1.2
  let s3 := call drv (Call.clSetKernelArg self.kernel 3 sizeof_int (ArgValue.int32 argN)) s2.2
  let e := call drv
    (Call.clEnqueueNDRangeKernel self.command_queue self.kernel 1 (globalSize n) 64) s3.2
  if e.1.err ≠ CL_SUCCESS then (false, outputC, e.2)
  else
    let r := call drv (Call.clEnqueueReadBuffer self.command_queue d_c CL_TRUE 0 bytes) e.2
    let outputC := hostCopy outputC (r.1.data.take (bytes / sizeof_float))
    let ra := call drv (Call.clReleaseMemObject d_a) r.2
    let rb := call drv (Call.clReleaseMemObject d_b) ra.2
    let rc := call drv (Call.clReleaseMemObject d_c) rb.2
    (true, outputC, rc.2)

end OpenCLBridge

/-! ## A reference driver -/

/-- Modelled from the spec: the kernel source `src/kernels/demo.cl` is not among the
source files.  Section 6 gives the entry as four positional parameters, two read-only
float buffers, one write-only float buffer and a 32-bit signed integer `N`, where each
work-item `i` writes `out[i] = a[i] + b[i]` guarded by `i < N`.  This is the effect of
work-item `gid` on the output buffer. -/
def vector_add (add : α → α → α) (a b : List α) (N : Int) (out : List α) (gid : Nat) : List α :=
  if (gid : Int) < N then
    match a[gid]?, b[gid]? with
    | some x, some y => out.set gid (add x y)
    | _, _ => out
  else out

/-- State of the reference device: the next unused object handle, the content of each
live buffer object (in floats) and the arguments bound to the kernel. -/
structure Device (α : Type) where
  next : Handle
  mem : Handle → Option (List α)
  args : Nat → Option ArgValue

/-- Replace the entry at key `k`. -/
def setAt {β : Type} (m : Nat → Option β) (k : Nat) (v : Option β) : Nat → Option β :=
  fun h => if h = k then v else m h

/-- Answer of a call that only reports a status. -/
def status (err : cl_int) : Resp α :=
  { err := err, handle := 0, data := [], text := "" }

/-- Answer of a call that hands back an object. -/
def object (h : Handle) : Resp α :=
  { err := CL_SUCCESS, handle := h, data := [], text := "" }

/-- A model of the environment: a driver for one platform with a GPU (handle 2) and a CPU
(handle 3), on which every well-formed call succeeds (an empty buffer, an empty or ragged
index space, an unknown buffer and an unbound argument are refused).  Commands take
effect in the order they are enqueued (one in-order queue, blocking transfers).  A fresh
buffer holds `uninit i` at element `i`.
A launch runs the work-items `0 .. global_work_size - 1` of `vector_add` on the buffers
bound to arguments 0, 1, 2 with the integer bound to argument 3. -/
def idealDriver (add : α → α → α) (uninit : Nat → α) : Driver (Device α) α
  | d, Call.clGetPlatformIDs _ _ => (object 1, d)
  | d, Call.clGetDeviceIDs _ ty _ cur =>
    if ty = CL_DEVICE_TYPE_GPU then (object 2, d)
    else if ty = CL_DEVICE_TYPE_CPU then (object 3, d)
    else ({ err := CL_DEVICE_NOT_FOUND, handle := cur, data := [], text := "" }, d)
  | d, Call.clGetDeviceInfo _ _ _ =>
    ({ err := CL_SUCCESS, handle := 0, data := [], text := "Reference Device" }, d)
  | d, Call.clCreateContext _ _ => (object d.next, { d with next := d.next + 1 })
  | d, Call.clCreateCommandQueue _ _ _ => (object d.next, { d with next := d.next + 1 })
  | d, Call.clCreateProgramWithSource _ _ _ => (object d.next, { d with next := d.next + 1 })
  | d, Call.clBuildProgram _ _ _ => (status CL_SUCCESS, d)
  | d, Call.clGetProgramBuildInfo _ _ _ _ => (status CL_SUCCESS, d)
  | d, Call.clCreateKernel _ _ => (object d.next, { d with next := d.next + 1 })
  | d, Call.clCreateBuffer _ _ size =>
    if size = 0 then (status CL_INVALID_BUFFER_SIZE, d)
    else
      (object d.next,
        { d with next := d.next + 1,
                 mem := setAt d.mem d.next (some ((List.range (size / sizeof_float)).map uninit)) })
  | d, Call.clEnqueueWriteBuffer _ buf _ _ size data =>
    match d.mem buf with
    | some old =>
      (status CL_SUCCESS,
        { d with mem := setAt d.mem buf (some (hostCopy old (data.take (size / sizeof_float)))) })
    | none => (status CL_INVALID_MEM_OBJECT, d)
  | d, Call.clSetKernelArg _ i _ v => (status CL_SUCCESS, { d with args := setAt d.args i (some v) })
  | d, Call.clEnqueueNDRangeKernel _ _ _ gsz lsz =>
    if gsz = 0 then (status CL_INVALID_GLOBAL_WORK_SIZE, d)
    else if lsz = 0 ∨ gsz % lsz ≠ 0 then (status CL_INVALID_WORK_GROUP_SIZE, d)
    else
      match d.args 0, d.args 1, d.args 2, d.args 3 with
      | some (ArgValue.mem a), some (ArgValue.mem b), some (ArgValue.mem c),
          some (ArgValue.int32 N) =>
        match d.mem a, d.mem b, d.mem c with
        | some va, some vb, some vc =>
          (status CL_SUCCESS,
            { d with mem := setAt d.mem c (some ((List.range gsz).foldl (vector_add add va vb N) vc)) })
        | _, _, _ => (status CL_INVALID_MEM_OBJECT, d)
      | _, _, _, _ => (status CL_INVALID_KERNEL_ARGS, d)
  | d, Call.clEnqueueReadBuffer _ buf _ _ size =>
    match d.mem buf with
    | some v =>
      ({ err := CL_SUCCESS, handle := 0, data := v.take (size / sizeof_float), text := "" }, d)
    | none => (status CL_INVALID_MEM_OBJECT, d)
  | d, Call.clReleaseMemObject h => (status CL_SUCCESS, { d with mem := setAt d.mem h none })
  | d, Call.clReleaseKernel _ => (status CL_SUCCESS, d)
  | d, Call.clReleaseProgram _ => (status CL_SUCCESS, d)
  | d, Call.clReleaseCommandQueue _ => (status CL_SUCCESS, d)
  | d, Call.clReleaseContext _ => (status CL_SUCCESS, d)

/-- Content of the out-parameter a call carries, `0` for a call without one. -/
def Call.outParam : Call α → Handle
  | Call.clGetPlatformIDs _ cur => cur
  | Call.clGetDeviceIDs _ _ _ cur => cur
  | _ => 0

/-- The driver `drv` with a fault: every call selected by `p` fails with `code`, changes
nothing and hands back no object. -/
def faulty (p : Call α → Bool) (code : cl_int) (drv : Driver σ α) : Driver σ α :=
  fun s c =>
    if p c then ({ err := code, handle := c.outParam, data := [], text := "" }, s) else drv s c

/-- Number of live buffer objects of the reference device. -/
def Device.outstanding (d : Device α) : Nat :=
  ((List.range d.next).filter (fun h => (d.mem h).isSome)).length

/-- The reference device before any call: no object, nothing bound; handles 1 to 3 are
the platform and its two devices. -/
def Device.boot : Device α :=
  { next := 4, mem := fun _ => none, args := fun _ => none }

/-- A world in which nothing has happened yet. -/
def World.boot : World (Device α) α :=
  { dev := Device.boot, trace := [], diag := [] }

/-! ## Call classifiers -/

def Call.isGetDeviceIDs : Call α → Bool
  | Call.clGetDeviceIDs _ _ _ _ => true
  | _ => false

def Call.isCreateContext : Call α → Bool
  | Call.clCreateContext _ _ => true
  | _ => false

def Call.isCreateCommandQueue : Call α → Bool
  | Call.clCreateCommandQueue _ _ _ => true
  | _ => false

def Call.isBuildProgram : Call α → Bool
  | Call.clBuildProgram _ _ _ => true
  | _ => false

def Call.isGetProgramBuildInfo : Call α → Bool
  | Call.clGetProgramBuildInfo _ _ _ _ => true
  | _ => false

def Call.isCreateKernel : Call α → Bool
  | Call.clCreateKernel _ _ => true
  | _ => false

def Call.isCreateBuffer : Call α → Bool
  | Call.clCreateBuffer _ _ _ => true
  | _ => false

def Call.isSetKernelArg : Call α → Bool
  | Call.clSetKernelArg _ _ _ _ => true
  | _ => false

def Call.isEnqueueNDRangeKernel : Call α → Bool
  | Call.clEnqueueNDRangeKernel _ _ _ _ _ => true
  | _ => false

def Call.isEnqueueWriteBuffer : Call α → Bool
  | Call.clEnqueueWriteBuffer _ _ _ _ _ _ => true
  | _ => false

def Call.isEnqueueReadBuffer : Call α → Bool
  | Call.clEnqueueReadBuffer _ _ _ _ _ => true
  | _ => false

def Call.isReleaseMemObject : Call α → Bool
  | Call.clReleaseMemObject _ => true
  | _ => false

/-! ## Statement helpers -/

section Helpers
open OpenCLBridge

/-- The ten calls up to and including the launch, for the answers `ra rb rc` of the three
allocations: written out once so that the statements below can share it. -/
def launchCalls (self : OpenCLBridge) (inputA inputB : List α) (ra rb rc : Resp α)
    (argN : Int) (gsz : Nat) : List (Call α) :=
  let bytes := (inputA.length * sizeof_float) % SIZE_T_RANGE
  [ Call.clCreateBuffer self.context CL_MEM_READ_ONLY bytes,
    Call.clCreateBuffer self.context CL_MEM_READ_ONLY bytes,
    Call.clCreateBuffer self.context CL_MEM_WRITE_ONLY bytes,
    Call.clEnqueueWriteBuffer self.command_queue ra.handle CL_TRUE 0 bytes
      (inputA.take (bytes / sizeof_float)),
    Call.clEnqueueWriteBuffer self.command_queue rb.handle CL_TRUE 0 bytes
      (inputB.take (bytes / sizeof_float)),
    Call.clSetKernelArg self.kernel 0 sizeof_cl_mem (ArgValue.mem ra.handle),
    Call.clSetKernelArg self.kernel 1 sizeof_cl_mem (ArgValue.mem rb.handle),
    Call.clSetKernelArg self.kernel 2 sizeof_cl_mem (ArgValue.mem rc.handle),
    Call.clSetKernelArg self.kernel 3 sizeof_int (ArgValue.int32 argN),
    Call.clEnqueueNDRangeKernel self.command_queue self.kernel 1 gsz 64 ]

end Helpers

/-! ## The demo run

Concrete runs use integers for the floats and `-1` for the content of fresh device
memory.  `demoSession` and `demoWorld` are what lines 7 to 12 of `main.cpp` leave behind
on the reference driver. -/

def demoDriver : Driver (Device Int) Int :=
  idealDriver (fun x y => x + y) (fun _ => -1)

def demoFiles : String → Option String :=
  fun path => if path = "src/kernels/demo.cl" then some "__kernel void vector_add" else none

def demoInit : Bool × OpenCLBridge × World (Device Int) Int :=
  OpenCLBridge.init demoDriver OpenCLBridge.new World.boot

def demoLoad : Bool × OpenCLBridge × World (Device Int) Int :=
  OpenCLBridge.loadKernel demoDriver demoFiles demoInit.2.1 "src/kernels/demo.cl" "vector_add"
    demoInit.2.2

def demoSession : OpenCLBridge := demoLoad.2.1

def demoWorld : World (Device Int) Int := demoLoad.2.2

/-- The vectors of lines 14 to 17 of `main.cpp`: `A(N, 1.0f)`, `B(N, 2.0f)`, `C(N)` with
`N = 1024`. -/
def mainA : List Int := List.replicate 1024 1

def mainB : List Int := List.replicate 1024 2

def mainC : List Int := List.replicate 1024 0

/-- Inputs of 2 ^ 31 elements each. -/
def bigA : List Int := List.replicate (2 ^ 31) 1

def bigB : List Int := List.replicate (2 ^ 31) 2

def bigOut : List Int := List.replicate (2 ^ 31) 0

/-! ## Drivers with one fault -/

/-- The platform has neither a GPU nor a CPU device. -/
def noDeviceDriver : Driver (Device Int) Int :=
  faulty Call.isGetDeviceIDs CL_DEVICE_NOT_FOUND demoDriver

/-- The driver rejects context creation. -/
def noContextDriver : Driver (Device Int) Int :=
  faulty Call.isCreateContext CL_OUT_OF_HOST_MEMORY demoDriver

/-- The driver rejects command queue creation. -/
def noQueueDriver : Driver (Device Int) Int :=
  faulty Call.isCreateCommandQueue CL_OUT_OF_HOST_MEMORY demoDriver

/-- The driver refuses the kernel launch. -/
def launchRefusedDriver : Driver (Device Int) Int :=
  faulty Call.isEnqueueNDRangeKernel CL_OUT_OF_RESOURCES demoDriver

/-- The device-to-host read fails. -/
def readFailsDriver : Driver (Device Int) Int :=
  faulty Call.isEnqueueReadBuffer CL_OUT_OF_RESOURCES demoDriver

/-- The host-to-device writes fail. -/
def writeFailsDriver : Driver (Device Int) Int :=
  faulty Call.isEnqueueWriteBuffer CL_OUT_OF_RESOURCES demoDriver

/-! ## Basic facts about the recorded world -/

section Basics

@[simp] theorem call_fst (drv : Driver σ α) (c : Call α) (w : World σ α) :
    (call drv c w).1 = (drv w.dev c).1 := rfl

@[simp] theorem call_trace (drv : Driver σ α) (c : Call α) (w : World σ α) :
    (call drv c w).2.trace = w.trace ++ [⟨c, (drv w.dev c).1⟩] := rfl

@[simp] theorem call_dev (drv : Driver σ α) (c : Call α) (w : World σ α) :
    (call drv c w).2.dev = (drv w.dev c).2 := rfl

@[simp] theorem call_diag (drv : Driver σ α) (c : Call α) (w : World σ α) :
    (call drv c w).2.diag = w.diag := rfl

@[simp] theorem print_trace (line : String) (w : World σ α) :
    (print line w).trace = w.trace := rfl

@[simp] theorem print_dev (line : String) (w : World σ α) :
    (print line w).dev = w.dev := rfl

@[simp] theorem print_diag (line : String) (w : World σ α) :
    (print line w).diag = w.diag ++ [line] := rfl

theorem hostCopy_length (dst src : List α) : (hostCopy dst src).length = dst.length := by
  simp only [hostCopy, List.length_append, List.length_take, List.length_drop]
  omega

end Basics

/-! ## Session teardown -/

section Teardown
open OpenCLBridge

/-- Claim C9: for every session state the release calls made by the destructor are exactly
the non-null handles among kernel, program, command queue and context, in that order and
once each; a freshly constructed session makes no release call. -/
theorem destructor_release_order (drv : Driver σ α) (self : OpenCLBridge) (w : World σ α) :
    (destructor drv self w).trace.map Event.call =
        w.trace.map Event.call ++
          ((if self.kernel ≠ 0 then [Call.clReleaseKernel self.kernel] else []) ++
           (if self.program ≠ 0 then [Call.clReleaseProgram self.program] else []) ++
           (if self.command_queue ≠ 0 then [Call.clReleaseCommandQueue self.command_queue]
            else []) ++
           (if self.context ≠ 0 then [Call.clReleaseContext self.context] else []))
      ∧ (destructor drv OpenCLBridge.new w).trace = w.trace := by
  refine ⟨?_, ?_⟩
  · unfold destructor
    by_cases hk : self.kernel = 0 <;> by_cases hp : self.program = 0 <;>
      by_cases hq : self.command_queue = 0 <;> by_cases hc : self.context = 0 <;>
      simp [hk, hp, hq, hc]
  · simp [destructor, OpenCLBridge.new]

end Teardown

/-! ## Kernel compilation -/

section Compile
open OpenCLBridge

/-- Claim C7: when the kernel source file is unreadable or empty, loadKernel returns false
without a driver call: the trace and the driver state are unchanged (no program, no kernel
created) and every handle of the session is what it was. -/
theorem loadKernel_source_unavailable (drv : Driver σ α) (fs : String → Option String)
    (self : OpenCLBridge) (filePath kernelName : String) (w : World σ α)
    (h : fs filePath = none ∨ ∃ s, fs filePath = some s ∧ s.isEmpty = true) :
    (loadKernel drv fs self filePath kernelName w).1 = false ∧
    (loadKernel drv fs self filePath kernelName w).2.1 = self ∧
    (loadKernel drv fs self filePath kernelName w).2.2.trace = w.trace ∧
    (loadKernel drv fs self filePath kernelName w).2.2.dev = w.dev := by
  rcases h with h | ⟨s, h, hs⟩
  · have e : ("" : String).isEmpty = true := rfl
    simp [loadKernel, loadSource, h, e]
  · simp [loadKernel, loadSource, h, hs]

theorem loadKernel_source_unavailable_witness :
    (demoFiles "missing.cl" = none ∨
      ∃ s, demoFiles "missing.cl" = some s ∧ s.isEmpty = true) ∧
    ((loadKernel demoDriver demoFiles demoInit.2.1 "missing.cl" "vector_add" demoInit.2.2).1
        = false ∧
      (loadKernel demoDriver demoFiles demoInit.2.1 "missing.cl" "vector_add" demoInit.2.2).2.1
        = demoInit.2.1 ∧
      (loadKernel demoDriver demoFiles demoInit.2.1 "missing.cl" "vector_add"
        demoInit.2.2).2.2.trace = demoInit.2.2.trace ∧
      (loadKernel demoDriver demoFiles demoInit.2.1 "missing.cl" "vector_add"
        demoInit.2.2).2.2.dev = demoInit.2.2.dev) :=
  ⟨Or.inl (by decide),
    loadKernel_source_unavailable demoDriver demoFiles demoInit.2.1 "missing.cl" "vector_add"
      demoInit.2.2 (Or.inl (by decide))⟩

/-- Claim C8: for a non-empty source text loadKernel creates the program and builds it;
it returns true exactly when the build reports success and the kernel entry is then
created with success.  When the build fails the only further driver call retrieves the
build log (no kernel entry is requested), the log is printed and the result is false;
when the build succeeds the only further call requests the named entry, and a failure
of that call gives false. -/
theorem loadKernel_build_and_entry (drv : Driver σ α) (fs : String → Option String)
    (self : OpenCLBridge) (filePath kernelName src : String) (w : World σ α)
    (hs : fs filePath = some src) (hne : src.isEmpty = false) :
    ∃ p b rest,
      (loadKernel drv fs self filePath kernelName w).2.2.trace =
        w.trace ++ [⟨Call.clCreateProgramWithSource self.context 1 src, p⟩,
                    ⟨Call.clBuildProgram p.handle 1 self.device_id, b⟩] ++ rest ∧
      ((loadKernel drv fs self filePath kernelName w).1 = true ↔
        b.err = CL_SUCCESS ∧
          ∃ k, rest = [⟨Call.clCreateKernel p.handle kernelName, k⟩] ∧ k.err = CL_SUCCESS) ∧
      (b.err ≠ CL_SUCCESS →
        (loadKernel drv fs self filePath kernelName w).1 = false ∧
        (∀ e ∈ rest, e.call.isCreateKernel = false) ∧
        ∃ l, rest = [⟨Call.clGetProgramBuildInfo p.handle self.device_id
                        CL_PROGRAM_BUILD_LOG 2048, l⟩] ∧
          (loadKernel drv fs self filePath kernelName w).2.2.diag =
            w.diag ++ ["Build Log: " ++ l.text]) ∧
      (b.err = CL_SUCCESS →
        ∃ k, rest = [⟨Call.clCreateKernel p.handle kernelName, k⟩] ∧
          (loadKernel drv fs self filePath kernelName w).2.1.kernel = k.handle ∧
          (k.err ≠ CL_SUCCESS → (loadKernel drv fs self filePath kernelName w).1 = false)) := by
  let p := drv w.dev (Call.clCreateProgramWithSource self.context 1 src)
  let b := drv p.2 (Call.clBuildProgram p.1.handle 1 self.device_id)
  let k := drv b.2 (Call.clCreateKernel p.1.handle kernelName)
  let l := drv b.2
    (Call.clGetProgramBuildInfo p.1.handle self.device_id CL_PROGRAM_BUILD_LOG 2048)
  by_cases hb : b.1.err = CL_SUCCESS
  · have hb0 := hb
    simp only [b, p] at hb
    refine ⟨p.1, b.1, [⟨Call.clCreateKernel p.1.handle kernelName, k.1⟩], ?_, ?_, ?_, ?_⟩
    · simp [loadKernel, loadSource, hs, hne, hb, p, b, k]
    · simp [loadKernel, loadSource, hs, hne, hb, p, b, k]
    · intro h; exact absurd hb0 h
    · intro _
      refine ⟨k.1, rfl, ?_, ?_⟩
      · simp [loadKernel, loadSource, hs, hne, hb, p, b, k]
      · simp [loadKernel, loadSource, hs, hne, hb, p, b, k]
  · have hb0 := hb
    simp only [b, p] at hb
    refine ⟨p.1, b.1, [⟨Call.clGetProgramBuildInfo p.1.handle self.device_id
      CL_PROGRAM_BUILD_LOG 2048, l.1⟩], ?_, ?_, ?_, ?_⟩
    · simp [loadKernel, loadSource, hs, hne, hb, p, b, l]
    · simp [loadKernel, loadSource, hs, hne, hb, p, b, l]
    · intro _
      refine ⟨?_, ?_, l.1, rfl, ?_⟩
      · simp [loadKernel, loadSource, hs, hne, hb, p, b, l]
      · simp [Call.isCreateKernel]
      · simp [loadKernel, loadSource, hs, hne, hb, p, b, l]
    · intro h; exact absurd h hb0

theorem loadKernel_build_and_entry_witness :
    demoFiles "src/kernels/demo.cl" = some "__kernel void vector_add" ∧
    ("__kernel void vector_add" : String).isEmpty = false ∧
    ∃ p b rest,
      (loadKernel demoDriver demoFiles demoInit.2.1 "src/kernels/demo.cl" "vector_add"
          demoInit.2.2).2.2.trace =
        demoInit.2.2.trace ++
          [⟨Call.clCreateProgramWithSource demoInit.2.1.context 1 "__kernel void vector_add", p⟩,
           ⟨Call.clBuildProgram p.handle 1 demoInit.2.1.device_id, b⟩] ++ rest ∧
      ((loadKernel demoDriver demoFiles demoInit.2.1 "src/kernels/demo.cl" "vector_add"
          demoInit.2.2).1 = true ↔
        b.err = CL_SUCCESS ∧
          ∃ k, rest = [⟨Call.clCreateKernel p.handle "vector_add", k⟩] ∧ k.err = CL_SUCCESS) ∧
      (b.err ≠ CL_SUCCESS →
        (loadKernel demoDriver demoFiles demoInit.2.1 "src/kernels/demo.cl" "vector_add"
          demoInit.2.2).1 = false ∧
        (∀ e ∈ rest, e.call.isCreateKernel = false) ∧
        ∃ l, rest = [⟨Call.clGetProgramBuildInfo p.handle demoInit.2.1.device_id
                        CL_PROGRAM_BUILD_LOG 2048, l⟩] ∧
          (loadKernel demoDriver demoFiles demoInit.2.1 "src/kernels/demo.cl" "vector_add"
            demoInit.2.2).2.2.diag = demoInit.2.2.diag ++ ["Build Log: " ++ l.text]) ∧
      (b.err = CL_SUCCESS →
        ∃ k, rest = [⟨Call.clCreateKernel p.handle "vector_add", k⟩] ∧
          (loadKernel demoDriver demoFiles demoInit.2.1 "src/kernels/demo.cl" "vector_add"
            demoInit.2.2).2.1.kernel = k.handle ∧
          (k.err ≠ CL_SUCCESS →
            (loadKernel demoDriver demoFiles demoInit.2.1 "src/kernels/demo.cl" "vector_add"
              demoInit.2.2).1 = false)) :=
  ⟨by decide, by decide,
    loadKernel_build_and_entry demoDriver demoFiles demoInit.2.1 "src/kernels/demo.cl"
      "vector_add" "__kernel void vector_add" demoInit.2.2 (by decide) (by decide)⟩

end Compile

/-! ## Dispatch: the calls made by `runVectorAdd` -/

section Dispatch
open OpenCLBridge

/-- Shape of every run of `runVectorAdd`: three allocations, two writes, four bindings and
the launch; then nothing more when the launch is refused, and the read followed by the
three releases when it is accepted.  The result is true exactly when the launch is
accepted. -/
theorem runVectorAdd_shape (drv : Driver σ α) (self : OpenCLBridge)
    (inputA inputB outputC : List α) (w : World σ α) :
    ∃ ra rb rc rwa rwb r0 r1 r2 r3 re rest,
      (runVectorAdd drv self inputA inputB outputC w).2.2.trace =
        w.trace ++
          (List.zipWith Event.mk
            (launchCalls self inputA inputB ra rb rc (toInt32 inputA.length)
              (globalSize inputA.length))
            [ra, rb, rc, rwa, rwb, r0, r1, r2, r3, re]) ++ rest ∧
      ((runVectorAdd drv self inputA inputB outputC w).1 = true ↔ re.err = CL_SUCCESS) ∧
      (re.err ≠ CL_SUCCESS →
        rest = [] ∧ (runVectorAdd drv self inputA inputB outputC w).2.1 = outputC) ∧
      (re.err = CL_SUCCESS →
        ∃ rr xa xb xc,
          rest =
            [ ⟨Call.clEnqueueReadBuffer self.command_queue rc.handle CL_TRUE 0
                ((inputA.length * sizeof_float) % SIZE_T_RANGE), rr⟩,
              ⟨Call.clReleaseMemObject ra.handle, xa⟩,
              ⟨Call.clReleaseMemObject rb.handle, xb⟩,
              ⟨Call.clReleaseMemObject rc.handle, xc⟩ ] ∧
          (runVectorAdd drv self inputA inputB outputC w).2.1 =
            hostCopy outputC
              (rr.data.take (((inputA.length * sizeof_float) % SIZE_T_RANGE) / sizeof_float))) := by
  let bytes := (inputA.length * sizeof_float) % SIZE_T_RANGE
  let a := call drv (Call.clCreateBuffer self.context CL_MEM_READ_ONLY bytes) w
  let b := call drv (Call.clCreateBuffer self.context CL_MEM_READ_ONLY bytes) a.2
  let c := call drv (Call.clCreateBuffer self.context CL_MEM_WRITE_ONLY bytes) b.2
  let wa := call drv (Call.clEnqueueWriteBuffer self.command_queue a.1.handle CL_TRUE 0 bytes
    (inputA.take (bytes / sizeof_float))) c.2
  let wb := call drv (Call.clEnqueueWriteBuffer self.command_queue b.1.handle CL_TRUE 0 bytes
    (inputB.take (bytes / sizeof_float))) wa.2
  let s0 := call drv (Call.clSetKernelArg self.kernel 0 sizeof_cl_mem (ArgValue.mem a.1.handle)) wb.2
  let s1 := call drv (Call.clSetKernelArg self.kernel 1 sizeof_cl_mem (ArgValue.mem b.1.handle)) s0.2
  let s2 := call drv (Call.clSetKernelArg self.kernel 2 sizeof_cl_mem (ArgValue.mem c.1.handle)) s1.2
  let s3 := call drv
    (Call.clSetKernelArg self.kernel 3 sizeof_int (ArgValue.int32 (toInt32 inputA.length))) s2.2
  let e := call drv
    (Call.clEnqueueNDRangeKernel self.command_queue self.kernel 1 (globalSize inputA.length) 64) s3.2
  let r := call drv (Call.clEnqueueReadBuffer self.command_queue c.1.handle CL_TRUE 0 bytes) e.2
  let xa := call drv (Call.clReleaseMemObject a.1.handle) r.2
  let xb := call drv (Call.clReleaseMemObject b.1.handle) xa.2
  let xc := call drv (Call.clReleaseMemObject c.1.handle) xb.2
  have hrun : runVectorAdd drv self inputA inputB outputC w =
      if e.1.err ≠ CL_SUCCESS then (false, outputC, e.2)
      else (true, hostCopy outputC (r.1.data.take (bytes / sizeof_float)), xc.2) := rfl
  have he : e.2.trace = w.trace ++
      (List.zipWith Event.mk
        (launchCalls self inputA inputB a.1 b.1 c.1 (toInt32 inputA.length)
          (globalSize inputA.length))
        [a.1, b.1, c.1, wa.1, wb.1, s0.1, s1.1, s2.1, s3.1, e.1]) := by
    simp only [e, s3, s2, s1, s0, wb, wa, c, b, a, call_trace, launchCalls, List.zipWith,
      List.append_assoc, List.singleton_append, List.cons_append, List.nil_append, call_fst,
      call_dev]
  by_cases hs : e.1.err = CL_SUCCESS
  · refine ⟨a.1, b.1, c.1, wa.1, wb.1, s0.1, s1.1, s2.1, s3.1, e.1,
      [⟨Call.clEnqueueReadBuffer self.command_queue c.1.handle CL_TRUE 0 bytes, r.1⟩,
       ⟨Call.clReleaseMemObject a.1.handle, xa.1⟩, ⟨Call.clReleaseMemObject b.1.handle, xb.1⟩,
       ⟨Call.clReleaseMemObject c.1.handle, xc.1⟩], ?_, ?_, ?_, ?_⟩
    · rw [hrun, if_neg (not_not.mpr hs), ← he]
      simp only [xc, xb, xa, r, call_trace, List.append_assoc, List.singleton_append, call_fst,
        call_dev, List.cons_append, List.nil_append]
    · rw [hrun, if_neg (not_not.mpr hs)]
      simp [hs]
    · intro h; exact absurd hs h
    · intro _
      refine ⟨r.1, xa.1, xb.1, xc.1, rfl, ?_⟩
      rw [hrun, if_neg (not_not.mpr hs)]
  · refine ⟨a.1, b.1, c.1, wa.1, wb.1, s0.1, s1.1, s2.1, s3.1, e.1, [], ?_, ?_, ?_, ?_⟩
    · rw [hrun, if_pos hs, ← he]
      simp
    · rw [hrun, if_pos hs]
      simp [hs]
    · intro _
      refine ⟨rfl, ?_⟩
      rw [hrun, if_pos hs]
    · intro h; exact absurd h hs

/-! ### Launch width -/

theorem globalSize_eq (n : Nat) (hfit : n * sizeof_float < SIZE_T_RANGE) :
    globalSize n = (n + 63) / 64 * 64 := by
  simp only [globalSize, SIZE_T_RANGE, sizeof_float] at *
  split <;> omega

theorem ceil_div_64 (n : Nat) : ⌈(n : ℚ) / 64⌉₊ = (n + 63) / 64 := by
  apply le_antisymm
  · apply Nat.ceil_le.mpr
    rw [div_le_iff₀ (by norm_num)]
    have h : n ≤ (n + 63) / 64 * 64 := by omega
    exact_mod_cast h
  · have h := Nat.le_ceil ((n : ℚ) / 64)
    rw [div_le_iff₀ (by norm_num)] at h
    have h2 : n ≤ ⌈(n : ℚ) / 64⌉₊ * 64 := by exact_mod_cast h
    omega

/-- Calls of every run of `runVectorAdd`, in order: the ten calls up to the launch, and the
read and the three releases exactly when the result is true. -/
theorem runVectorAdd_calls (drv : Driver σ α) (self : OpenCLBridge)
    (inputA inputB outputC : List α) (w : World σ α) :
    ∃ ra rb rc : Resp α,
      callsSince w (runVectorAdd drv self inputA inputB outputC w).2.2 =
        launchCalls self inputA inputB ra rb rc (toInt32 inputA.length)
            (globalSize inputA.length) ++
          (if (runVectorAdd drv self inputA inputB outputC w).1 = true then
            [ Call.clEnqueueReadBuffer self.command_queue rc.handle CL_TRUE 0
                ((inputA.length * sizeof_float) % SIZE_T_RANGE),
              Call.clReleaseMemObject ra.handle, Call.clReleaseMemObject rb.handle,
              Call.clReleaseMemObject rc.handle ]
           else []) := by
  obtain ⟨ra, rb, rc, rwa, rwb, r0, r1, r2, r3, re, rest, ht, hr, hf, hs⟩ :=
    runVectorAdd_shape drv self inputA inputB outputC w
  refine ⟨ra, rb, rc, ?_⟩
  unfold callsSince
  rw [ht, List.append_assoc, List.drop_left, List.map_append]
  by_cases hre : re.err = CL_SUCCESS
  · obtain ⟨rr, xa, xb, xc, hrest, -⟩ := hs hre
    rw [if_pos (hr.mpr hre), hrest]
    simp [launchCalls]
  · rw [if_neg (fun h => hre (hr.mp h)), (hf hre).1]
    simp [launchCalls]

/-- Claim C2: for every element count N of a vector that fits the address space (N >= 1
included), the only launch runVectorAdd enqueues has localSize 64 and globalSize
ceil(N / 64) * 64, the least multiple of 64 that is at least N; 1024, 1 and 65 elements
give 1024, 64 and 128. -/
theorem runVectorAdd_globalSize (drv : Driver σ α) (self : OpenCLBridge)
    (inputA inputB outputC : List α) (w : World σ α)
    (hfit : inputA.length * sizeof_float < SIZE_T_RANGE) :
    Call.clEnqueueNDRangeKernel self.command_queue self.kernel 1
        (⌈(inputA.length : ℚ) / 64⌉₊ * 64) 64 ∈
      callsSince w (runVectorAdd drv self inputA inputB outputC w).2.2 ∧
    (∀ q k dim gsz lsz,
      Call.clEnqueueNDRangeKernel q k dim gsz lsz ∈
          callsSince w (runVectorAdd drv self inputA inputB outputC w).2.2 →
        gsz = ⌈(inputA.length : ℚ) / 64⌉₊ * 64 ∧ lsz = 64) ∧
    globalSize inputA.length = ⌈(inputA.length : ℚ) / 64⌉₊ * 64 ∧
    inputA.length ≤ globalSize inputA.length ∧
    globalSize inputA.length % 64 = 0 ∧
    (∀ m, inputA.length ≤ m → m % 64 = 0 → globalSize inputA.length ≤ m) ∧
    globalSize 1024 = 1024 ∧ globalSize 1 = 64 ∧ globalSize 65 = 128 := by
  have hg := globalSize_eq inputA.length hfit
  have hc := ceil_div_64 inputA.length
  obtain ⟨ra, rb, rc, hcalls⟩ := runVectorAdd_calls drv self inputA inputB outputC w
  refine ⟨?_, ?_, ?_, ?_, ?_, ?_, by decide, by decide, by decide⟩
  · rw [hcalls, hc, ← hg]
    simp [launchCalls]
  · intro q k dim gsz lsz hmem
    rw [hcalls, hc, ← hg] at *
    split at hmem <;> simp [launchCalls] at hmem <;> exact ⟨hmem.2.2.2.1, hmem.2.2.2.2⟩
  · rw [hg, hc]
  · rw [hg]; omega
  · rw [hg]; omega
  · intro m h2 h3
    rw [hg]; omega

theorem runVectorAdd_globalSize_witness :
    [1, 2, (3 : Int)].length * sizeof_float < SIZE_T_RANGE ∧
    (Call.clEnqueueNDRangeKernel demoSession.command_queue demoSession.kernel 1
        (⌈(([1, 2, (3 : Int)].length : ℕ) : ℚ) / 64⌉₊ * 64) 64 ∈
      callsSince demoWorld
        (runVectorAdd demoDriver demoSession [1, 2, 3] [10, 20, 30] [0, 0, 0] demoWorld).2.2 ∧
    (∀ q k dim gsz lsz,
      Call.clEnqueueNDRangeKernel q k dim gsz lsz ∈
          callsSince demoWorld
            (runVectorAdd demoDriver demoSession [1, 2, 3] [10, 20, 30] [0, 0, 0]
              demoWorld).2.2 →
        gsz = ⌈(([1, 2, (3 : Int)].length : ℕ) : ℚ) / 64⌉₊ * 64 ∧ lsz = 64) ∧
    globalSize [1, 2, (3 : Int)].length = ⌈(([1, 2, (3 : Int)].length : ℕ) : ℚ) / 64⌉₊ * 64 ∧
    [1, 2, (3 : Int)].length ≤ globalSize [1, 2, (3 : Int)].length ∧
    globalSize [1, 2, (3 : Int)].length % 64 = 0 ∧
    (∀ m, [1, 2, (3 : Int)].length ≤ m → m % 64 = 0 → globalSize [1, 2, (3 : Int)].length ≤ m) ∧
    globalSize 1024 = 1024 ∧ globalSize 1 = 64 ∧ globalSize 65 = 128) :=
  ⟨by decide,
    runVectorAdd_globalSize demoDriver demoSession [1, 2, 3] [10, 20, 30] [0, 0, 0] demoWorld
      (by decide)⟩

end Dispatch

/-! ## The launch on the reference driver -/

section Kernel
open OpenCLBridge

theorem vector_add_length (add : α → α → α) (a b : List α) (N : Int) (out : List α) (gid : Nat) :
    (vector_add add a b N out gid).length = out.length := by
  unfold vector_add
  split
  · split <;> simp
  · rfl

theorem launch_length (add : α → α → α) (a b : List α) (N : Int) (items : List Nat) :
    ∀ vc : List α, (items.foldl (vector_add add a b N) vc).length = vc.length := by
  induction items with
  | nil => intro vc; rfl
  | cons g rest ih =>
    intro vc
    rw [List.foldl_cons, ih, vector_add_length]

theorem launch_getElem? (add : α → α → α) (a b vc : List α) (N : Int) (j : Nat)
    (ha : a.length = vc.length) (hb : b.length = vc.length) :
    ∀ g, ((List.range g).foldl (vector_add add a b N) vc)[j]? =
      if j < g ∧ (j : Int) < N then (List.zipWith add a b)[j]? else vc[j]? := by
  intro g
  induction g with
  | zero => simp
  | succ g ih =>
    rw [List.range_succ, List.foldl_append, List.foldl_cons, List.foldl_nil]
    have hlen := launch_length add a b N (List.range g) vc
    generalize (List.range g).foldl (vector_add add a b N) vc = c1 at ih hlen
    unfold vector_add
    by_cases hN : (g : Int) < N
    · rw [if_pos hN]
      by_cases hg : g < vc.length
      · have hga : g < a.length := by omega
        have hgb : g < b.length := by omega
        rw [List.getElem?_eq_getElem hga, List.getElem?_eq_getElem hgb]
        simp only []
        rw [List.getElem?_set]
        by_cases hj : g = j
        · subst hj
          simp [hlen, hg, hN, List.getElem?_zipWith, List.getElem?_eq_getElem hga,
            List.getElem?_eq_getElem hgb]
        · rw [if_neg hj, ih]
          have : (j < g + 1) ↔ (j < g) := by omega
          simp only [this]
      · have hga : a[g]? = none := List.getElem?_eq_none (by omega)
        rw [hga]
        simp only []
        rw [ih]
        by_cases hj : g = j
        · subst hj
          have h1 : vc[g]? = none := List.getElem?_eq_none (by omega)
          simp [List.getElem?_zipWith, hga, h1]
        · have : (j < g + 1) ↔ (j < g) := by omega
          simp only [this]
    · rw [if_neg hN, ih]
      by_cases hj : g = j
      · subst hj
        simp [hN]
      · have : (j < g + 1) ↔ (j < g) := by omega
        simp only [this]


theorem hostCopy_same_length (dst src : List α) (h : src.length = dst.length) :
    hostCopy dst src = src := by
  unfold hostCopy
  rw [← h, List.take_length, List.drop_of_length_le (by omega), List.append_nil]

theorem bytes_div (n : Nat) (hfit : n * sizeof_float < SIZE_T_RANGE) :
    (n * sizeof_float) % SIZE_T_RANGE / sizeof_float = n := by
  simp only [SIZE_T_RANGE, sizeof_float] at *
  omega

theorem globalSize_mod (n : Nat) (hfit : n * sizeof_float < SIZE_T_RANGE) :
    globalSize n % 64 = 0 := by
  rw [globalSize_eq n hfit]; omega

theorem ideal_run (add : α → α → α) (uninit : Nat → α) (self : OpenCLBridge)
    (A B out : List α) (w : World (Device α) α)
    (hN : 0 < A.length) (hB : B.length = A.length) (hO : out.length = A.length)
    (hfit : A.length * sizeof_float < SIZE_T_RANGE) :
    (runVectorAdd (idealDriver add uninit) self A B out w).1 = true ∧
    (runVectorAdd (idealDriver add uninit) self A B out w).2.1 =
      (List.range (globalSize A.length)).foldl (vector_add add A B (toInt32 A.length))
        ((List.range A.length).map uninit) ∧
    (∀ e ∈ eventsSince w (runVectorAdd (idealDriver add uninit) self A B out w).2.2,
      e.resp.err = CL_SUCCESS) := by
  have hb := bytes_div A.length hfit
  have hg := globalSize_mod A.length hfit
  have hg0 : globalSize A.length ≠ 0 := by
    rw [globalSize_eq A.length hfit]; omega
  have hb0 : A.length * sizeof_float % SIZE_T_RANGE ≠ 0 := by
    simp only [SIZE_T_RANGE, sizeof_float] at *
    omega
  have hA : hostCopy ((List.range A.length).map uninit) A = A :=
    hostCopy_same_length _ _ (by simp)
  have hB1 : List.take A.length B = B := List.take_of_length_le (by omega)
  have hB2 : hostCopy ((List.range A.length).map uninit) B = B :=
    hostCopy_same_length _ _ (by simp [hB])
  have n1 : ∀ k : Nat, ¬ (k + 1 + 1 = k) := fun k => by omega
  have hl : ((List.range (globalSize A.length)).foldl (vector_add add A B (toInt32 A.length))
      ((List.range A.length).map uninit)).length = A.length := by
    rw [launch_length]; simp
  refine ⟨?_, ?_, ?_⟩
  · simp [runVectorAdd, idealDriver, setAt, object, status, hb, hg, hg0, hb0, hA, hB1, hB2, n1]
  · simp [runVectorAdd, idealDriver, setAt, object, status, hb, hg, hg0, hb0, hA, hB1, hB2, n1]
    simp only [List.take_of_length_le (Nat.le_of_eq hl)]
    exact hostCopy_same_length _ _ (hl.trans hO.symm)
  · simp [eventsSince, runVectorAdd, idealDriver, setAt, object, status, hb, hg, hg0, hb0, hA,
      hB1, hB2, n1]

theorem toInt32_of_le (n : Nat) (h : n ≤ INT_MAX) : toInt32 n = (n : Int) := by
  simp only [INT_MAX] at h
  have h1 : n % 2 ^ 32 = n := Nat.mod_eq_of_lt (by omega)
  have h2 : n < 2 ^ 31 := by omega
  simp only [toInt32, h1, h2, if_true]

theorem le_globalSize (n : Nat) (hfit : n * sizeof_float < SIZE_T_RANGE) : n ≤ globalSize n := by
  rw [globalSize_eq n hfit]; omega

/-- Element `j` of the output after a run on the reference driver: the sum when the
kernel's guard `j < N` passes for the bound count, the content of fresh device memory
otherwise. -/
theorem ideal_out (add : α → α → α) (uninit : Nat → α) (self : OpenCLBridge)
    (A B out : List α) (w : World (Device α) α)
    (hN : 0 < A.length) (hB : B.length = A.length) (hO : out.length = A.length)
    (hfit : A.length * sizeof_float < SIZE_T_RANGE) (j : Nat) (hj : j < A.length) :
    (runVectorAdd (idealDriver add uninit) self A B out w).2.1[j]? =
      if (j : Int) < toInt32 A.length then (List.zipWith add A B)[j]? else some (uninit j) := by
  rw [(ideal_run add uninit self A B out w hN hB hO hfit).2.1,
    launch_getElem? add A B _ _ j (by simp) (by simp [hB])]
  have hg := le_globalSize A.length hfit
  have hjg : j < globalSize A.length := by omega
  by_cases hc : (j : Int) < toInt32 A.length
  · simp [hjg, hc]
  · simp [hc, List.getElem?_range hj]

end Kernel

/-! ## Dispatch: results -/

section Results
open OpenCLBridge

/-- Claim C1 (amended): for sequences A, B and out of one length N with 0 < N <= INT_MAX,
on the reference driver (every call succeeds, commands run in order, the kernel adds
under its guard), runVectorAdd returns true, out keeps its length N and out[i] is
A[i] + B[i] for every i < N; every driver call of the run reported success. -/
theorem runVectorAdd_ideal_sum (add : α → α → α) (uninit : Nat → α) (self : OpenCLBridge)
    (A B out : List α) (w : World (Device α) α)
    (hN : 0 < A.length) (hB : B.length = A.length) (hO : out.length = A.length)
    (hmax : A.length ≤ INT_MAX) :
    (runVectorAdd (idealDriver add uninit) self A B out w).1 = true ∧
    (runVectorAdd (idealDriver add uninit) self A B out w).2.1.length = out.length ∧
    (∀ i (hi : i < A.length),
      (runVectorAdd (idealDriver add uninit) self A B out w).2.1[i]? =
        some (add (A.get ⟨i, hi⟩) (B.get ⟨i, lt_of_lt_of_eq hi hB.symm⟩))) ∧
    (∀ e ∈ eventsSince w (runVectorAdd (idealDriver add uninit) self A B out w).2.2,
      e.resp.err = CL_SUCCESS) := by
  have hfit : A.length * sizeof_float < SIZE_T_RANGE := by
    simp only [INT_MAX, SIZE_T_RANGE, sizeof_float] at *
    omega
  have hrun := ideal_run add uninit self A B out w hN hB hO hfit
  refine ⟨hrun.1, ?_, ?_, hrun.2.2⟩
  · rw [hrun.2.1, launch_length]
    simp [hO]
  · intro i hi
    have hiB : i < B.length := hB ▸ hi
    rw [ideal_out add uninit self A B out w hN hB hO hfit i hi, toInt32_of_le _ hmax,
      if_pos (by exact_mod_cast hi), List.getElem?_zipWith, List.getElem?_eq_getElem hi,
      List.getElem?_eq_getElem hiB]
    rfl

theorem mainA_length : mainA.length = 1024 := List.length_replicate _ _

theorem mainB_length : mainB.length = 1024 := List.length_replicate _ _

theorem mainC_length : mainC.length = 1024 := List.length_replicate _ _

theorem runVectorAdd_ideal_sum_witness :
    (0 < mainA.length ∧ mainB.length = mainA.length ∧ mainC.length = mainA.length ∧
      mainA.length ≤ INT_MAX) ∧
    (runVectorAdd demoDriver demoSession mainA mainB mainC demoWorld).1 = true ∧
    (runVectorAdd demoDriver demoSession mainA mainB mainC demoWorld).2.1.length
      = mainC.length ∧
    (∀ i (hi : i < mainA.length),
      (runVectorAdd demoDriver demoSession mainA mainB mainC demoWorld).2.1[i]? =
        some ((fun x y => x + y) (mainA.get ⟨i, hi⟩)
          (mainB.get ⟨i, lt_of_lt_of_eq hi (mainA_length.trans mainB_length.symm)⟩))) ∧
    (∀ e ∈ eventsSince demoWorld
        (runVectorAdd demoDriver demoSession mainA mainB mainC demoWorld).2.2,
      e.resp.err = CL_SUCCESS) := by
  unfold demoDriver
  exact ⟨⟨by rw [mainA_length]; decide, mainB_length.trans mainA_length.symm,
      mainC_length.trans mainA_length.symm, by rw [mainA_length]; decide⟩,
    runVectorAdd_ideal_sum (fun x y => x + y) (fun _ => -1) demoSession mainA mainB mainC
      demoWorld (by rw [mainA_length]; decide) (mainB_length.trans mainA_length.symm)
      (mainC_length.trans mainA_length.symm) (by rw [mainA_length]; decide)⟩

theorem bigA_length : bigA.length = 2 ^ 31 := List.length_replicate _ _

theorem bigB_length : bigB.length = 2 ^ 31 := List.length_replicate _ _

theorem bigOut_length : bigOut.length = 2 ^ 31 := List.length_replicate _ _

theorem toInt32_big : toInt32 bigA.length = -2147483648 := by
  rw [bigA_length]; decide

/-- Claim C1 fails at N = 2 ^ 31: the three sequences have that length, every driver call
of the run succeeds and the result is true, yet out[0] is the content of fresh device
memory (-1) and not A[0] + B[0] = 1 + 2, because the count bound to the kernel is
negative and no work-item passes the guard. -/
theorem big_input_not_summed :
    bigB.length = bigA.length ∧ bigOut.length = bigA.length ∧ bigA.length = 2 ^ 31 ∧
    (runVectorAdd demoDriver demoSession bigA bigB bigOut demoWorld).1 = true ∧
    (∀ e ∈ eventsSince demoWorld
        (runVectorAdd demoDriver demoSession bigA bigB bigOut demoWorld).2.2,
      e.resp.err = CL_SUCCESS) ∧
    bigA[0]? = some 1 ∧ bigB[0]? = some 2 ∧
    (runVectorAdd demoDriver demoSession bigA bigB bigOut demoWorld).2.1[0]? = some (-1) ∧
    (runVectorAdd demoDriver demoSession bigA bigB bigOut demoWorld).2.1[0]? ≠ some (1 + 2) := by
  unfold demoDriver
  have hlen : bigA.length = 2 ^ 31 := bigA_length
  have hB : bigB.length = bigA.length := bigB_length.trans bigA_length.symm
  have hO : bigOut.length = bigA.length := bigOut_length.trans bigA_length.symm
  have hN : 0 < bigA.length := by rw [hlen]; decide
  have hfit : bigA.length * sizeof_float < SIZE_T_RANGE := by
    rw [hlen]; decide
  have hrun := ideal_run (fun x y => x + y) (fun _ => (-1 : Int)) demoSession bigA bigB bigOut
    demoWorld hN hB hO hfit
  have hout := ideal_out (fun x y => x + y) (fun _ => (-1 : Int)) demoSession bigA bigB bigOut
    demoWorld hN hB hO hfit 0 hN
  rw [toInt32_big] at hout
  have h0 : (runVectorAdd (idealDriver (fun x y => x + y) (fun _ => (-1 : Int))) demoSession
      bigA bigB bigOut demoWorld).2.1[0]? = some (-1) := by
    rw [hout]; rfl
  refine ⟨hB, hO, hlen, hrun.1, hrun.2.2, ?_, ?_, h0, ?_⟩
  · exact List.getElem?_replicate_of_lt (Nat.two_pow_pos 31)
  · exact List.getElem?_replicate_of_lt (Nat.two_pow_pos 31)
  · rw [h0]; decide

/-- Claim C10 (amended): for every input length N <= INT_MAX and every driver, the calls
of runVectorAdd start with the allocations of d_a and d_b (read-only) and d_c
(write-only), the two writes, the bindings of arguments 0, 1, 2 to d_a, d_b, d_c and of
argument 3 to a 4-byte signed integer of value N, and then the launch; no binding and no
launch comes after. -/
theorem runVectorAdd_bindings (drv : Driver σ α) (self : OpenCLBridge)
    (inputA inputB outputC : List α) (w : World σ α) (hmax : inputA.length ≤ INT_MAX) :
    ∃ ra rb rc rwa rwb r0 r1 r2 r3 re tail,
      eventsSince w (runVectorAdd drv self inputA inputB outputC w).2.2 =
        [ ⟨Call.clCreateBuffer self.context CL_MEM_READ_ONLY
            ((inputA.length * sizeof_float) % SIZE_T_RANGE), ra⟩,
          ⟨Call.clCreateBuffer self.context CL_MEM_READ_ONLY
            ((inputA.length * sizeof_float) % SIZE_T_RANGE), rb⟩,
          ⟨Call.clCreateBuffer self.context CL_MEM_WRITE_ONLY
            ((inputA.length * sizeof_float) % SIZE_T_RANGE), rc⟩,
          ⟨Call.clEnqueueWriteBuffer self.command_queue ra.handle CL_TRUE 0
            ((inputA.length * sizeof_float) % SIZE_T_RANGE)
            (inputA.take (((inputA.length * sizeof_float) % SIZE_T_RANGE) / sizeof_float)), rwa⟩,
          ⟨Call.clEnqueueWriteBuffer self.command_queue rb.handle CL_TRUE 0
            ((inputA.length * sizeof_float) % SIZE_T_RANGE)
            (inputB.take (((inputA.length * sizeof_float) % SIZE_T_RANGE) / sizeof_float)), rwb⟩,
          ⟨Call.clSetKernelArg self.kernel 0 sizeof_cl_mem (ArgValue.mem ra.handle), r0⟩,
          ⟨Call.clSetKernelArg self.kernel 1 sizeof_cl_mem (ArgValue.mem rb.handle), r1⟩,
          ⟨Call.clSetKernelArg self.kernel 2 sizeof_cl_mem (ArgValue.mem rc.handle), r2⟩,
          ⟨Call.clSetKernelArg self.kernel 3 sizeof_int (ArgValue.int32 (inputA.length : Int)),
            r3⟩,
          ⟨Call.clEnqueueNDRangeKernel self.command_queue self.kernel 1
            (globalSize inputA.length) 64, re⟩ ] ++ tail ∧
      sizeof_int * 8 = 32 ∧ (inputA.length : Int) < 2 ^ 31 ∧
      (∀ e ∈ tail, e.call.isSetKernelArg = false ∧ e.call.isEnqueueNDRangeKernel = false) := by
  obtain ⟨ra, rb, rc, rwa, rwb, r0, r1, r2, r3, re, rest, ht, -, hf, hs⟩ :=
    runVectorAdd_shape drv self inputA inputB outputC w
  refine ⟨ra, rb, rc, rwa, rwb, r0, r1, r2, r3, re, rest, ?_, by decide, ?_, ?_⟩
  · unfold eventsSince
    rw [ht, List.append_assoc, List.drop_left, toInt32_of_le _ hmax]
    rfl
  · simp only [INT_MAX] at hmax
    omega
  · by_cases hre : re.err = CL_SUCCESS
    · obtain ⟨rr, xa, xb, xc, hrest, -⟩ := hs hre
      rw [hrest]
      simp [Call.isSetKernelArg, Call.isEnqueueNDRangeKernel]
    · rw [(hf hre).1]
      simp

theorem runVectorAdd_bindings_witness :
    ∃ ra rb rc rwa rwb r0 r1 r2 r3 re tail,
      eventsSince demoWorld
          (runVectorAdd demoDriver demoSession [1, 2, 3] [10, 20, 30] [0, 0, 0] demoWorld).2.2 =
        [ ⟨Call.clCreateBuffer demoSession.context CL_MEM_READ_ONLY
            (([1, 2, (3 : Int)].length * sizeof_float) % SIZE_T_RANGE), ra⟩,
          ⟨Call.clCreateBuffer demoSession.context CL_MEM_READ_ONLY
            (([1, 2, (3 : Int)].length * sizeof_float) % SIZE_T_RANGE), rb⟩,
          ⟨Call.clCreateBuffer demoSession.context CL_MEM_WRITE_ONLY
            (([1, 2, (3 : Int)].length * sizeof_float) % SIZE_T_RANGE), rc⟩,
          ⟨Call.clEnqueueWriteBuffer demoSession.command_queue ra.handle CL_TRUE 0
            (([1, 2, (3 : Int)].length * sizeof_float) % SIZE_T_RANGE)
            ([1, 2, (3 : Int)].take
              ((([1, 2, (3 : Int)].length * sizeof_float) % SIZE_T_RANGE) / sizeof_float)), rwa⟩,
          ⟨Call.clEnqueueWriteBuffer demoSession.command_queue rb.handle CL_TRUE 0
            (([1, 2, (3 : Int)].length * sizeof_float) % SIZE_T_RANGE)
            ([10, 20, (30 : Int)].take
              ((([1, 2, (3 : Int)].length * sizeof_float) % SIZE_T_RANGE) / sizeof_float)), rwb⟩,
          ⟨Call.clSetKernelArg demoSession.kernel 0 sizeof_cl_mem (ArgValue.mem ra.handle), r0⟩,
          ⟨Call.clSetKernelArg demoSession.kernel 1 sizeof_cl_mem (ArgValue.mem rb.handle), r1⟩,
          ⟨Call.clSetKernelArg demoSession.kernel 2 sizeof_cl_mem (ArgValue.mem rc.handle), r2⟩,
          ⟨Call.clSetKernelArg demoSession.kernel 3 sizeof_int
            (ArgValue.int32 ([1, 2, (3 : Int)].length : Int)), r3⟩,
          ⟨Call.clEnqueueNDRangeKernel demoSession.command_queue demoSession.kernel 1
            (globalSize [1, 2, (3 : Int)].length) 64, re⟩ ] ++ tail ∧
      sizeof_int * 8 = 32 ∧ ([1, 2, (3 : Int)].length : Int) < 2 ^ 31 ∧
      (∀ e ∈ tail, e.call.isSetKernelArg = false ∧ e.call.isEnqueueNDRangeKernel = false) :=
  runVectorAdd_bindings demoDriver demoSession [1, 2, 3] [10, 20, 30] [0, 0, 0] demoWorld
    (by decide)

/-- Claim C10 fails at N = 2 ^ 31: the integer bound to argument 3 is -2147483648, and no
binding of argument 3 in the run carries the element count 2147483648. -/
theorem runVectorAdd_binds_wrapped_count :
    Call.clSetKernelArg demoSession.kernel 3 sizeof_int (ArgValue.int32 (-2147483648)) ∈
      callsSince demoWorld
        (runVectorAdd demoDriver demoSession bigA bigB bigOut demoWorld).2.2 ∧
    (bigA.length : Int) = 2147483648 ∧
    (∀ k sz v, Call.clSetKernelArg k 3 sz (ArgValue.int32 v) ∈
        callsSince demoWorld
          (runVectorAdd demoDriver demoSession bigA bigB bigOut demoWorld).2.2 →
      v ≠ (bigA.length : Int)) := by
  obtain ⟨ra, rb, rc, hcalls⟩ :=
    runVectorAdd_calls demoDriver demoSession bigA bigB bigOut demoWorld
  have hlen : (bigA.length : Int) = 2147483648 := by
    rw [bigA_length]; rfl
  refine ⟨?_, hlen, ?_⟩
  · rw [hcalls, toInt32_big]
    simp [launchCalls]
  · intro k sz v hmem
    rw [hcalls, toInt32_big] at hmem
    rw [hlen]
    split at hmem <;> simp [launchCalls] at hmem <;> (rw [hmem.2.2]; decide)

end Results

/-! ## Device selection -/

section Locate
open OpenCLBridge

/-- For every driver, init returns true exactly when the platform lookup succeeds: no
later answer of the driver is looked at. -/
theorem init_true_iff_platform (drv : Driver σ α) (self : OpenCLBridge) (w : World σ α) :
    (init drv self w).1 = true ↔
      (drv w.dev (Call.clGetPlatformIDs 1 self.platform_id)).1.err = CL_SUCCESS := by
  unfold init
  by_cases h : (drv w.dev (Call.clGetPlatformIDs 1 self.platform_id)).1.err = CL_SUCCESS <;>
    simp [h]

/-- When the platform lookup and the GPU lookup succeed, init makes one device lookup only
(the GPU one) and the device it selects is the one that lookup delivered. -/
theorem init_prefers_gpu (drv : Driver σ α) (self : OpenCLBridge) (w : World σ α)
    (hp : (drv w.dev (Call.clGetPlatformIDs 1 self.platform_id)).1.err = CL_SUCCESS)
    (hg : (drv (drv w.dev (Call.clGetPlatformIDs 1 self.platform_id)).2
      (Call.clGetDeviceIDs (drv w.dev (Call.clGetPlatformIDs 1 self.platform_id)).1.handle
        CL_DEVICE_TYPE_GPU 1 self.device_id)).1.err = CL_SUCCESS) :
    (callsSince w (init drv self w).2.2).filter Call.isGetDeviceIDs =
      [Call.clGetDeviceIDs (drv w.dev (Call.clGetPlatformIDs 1 self.platform_id)).1.handle
        CL_DEVICE_TYPE_GPU 1 self.device_id] ∧
    (init drv self w).2.1.device_id =
      (drv (drv w.dev (Call.clGetPlatformIDs 1 self.platform_id)).2
        (Call.clGetDeviceIDs (drv w.dev (Call.clGetPlatformIDs 1 self.platform_id)).1.handle
          CL_DEVICE_TYPE_GPU 1 self.device_id)).1.handle := by
  unfold init callsSince
  simp [hp, hg, Call.isGetDeviceIDs, List.filter]

end Locate

/-! ## Unchecked driver failures -/

section Faults
open OpenCLBridge

/-- Claim C3, the code at the failing input: when the launch is refused, runVectorAdd
returns false after allocating the buffers 8, 9 and 10 and makes no release call; the
three buffers are still live in the device. -/
theorem runVectorAdd_leaks_when_launch_refused :
    (runVectorAdd launchRefusedDriver demoSession [1, 2, 3] [10, 20, 30] [0, 0, 0]
      demoWorld).1 = false ∧
    ((eventsSince demoWorld (runVectorAdd launchRefusedDriver demoSession [1, 2, 3]
        [10, 20, 30] [0, 0, 0] demoWorld).2.2).filter
          (fun e => e.call.isCreateBuffer)).map (fun e => e.resp.handle) = [8, 9, 10] ∧
    (callsSince demoWorld (runVectorAdd launchRefusedDriver demoSession [1, 2, 3]
        [10, 20, 30] [0, 0, 0] demoWorld).2.2).filter Call.isReleaseMemObject = [] ∧
    demoWorld.dev.outstanding = 0 ∧
    (runVectorAdd launchRefusedDriver demoSession [1, 2, 3] [10, 20, 30] [0, 0, 0]
      demoWorld).2.2.dev.outstanding = 3 := by
  decide

/-- Claim C4, the code at the failing input: when the device-to-host read fails,
runVectorAdd still returns true (and out is left as it was); the same when both
host-to-device writes fail (and out receives sums of stale device memory). -/
theorem runVectorAdd_true_when_transfer_fails :
    (runVectorAdd readFailsDriver demoSession [1, 2, 3] [10, 20, 30] [0, 0, 0]
      demoWorld).1 = true ∧
    ((eventsSince demoWorld (runVectorAdd readFailsDriver demoSession [1, 2, 3]
        [10, 20, 30] [0, 0, 0] demoWorld).2.2).filter
          (fun e => e.call.isEnqueueReadBuffer)).map (fun e => e.resp.err)
      = [CL_OUT_OF_RESOURCES] ∧
    (runVectorAdd readFailsDriver demoSession [1, 2, 3] [10, 20, 30] [0, 0, 0]
      demoWorld).2.1 = [0, 0, 0] ∧
    (runVectorAdd writeFailsDriver demoSession [1, 2, 3] [10, 20, 30] [0, 0, 0]
      demoWorld).1 = true ∧
    ((eventsSince demoWorld (runVectorAdd writeFailsDriver demoSession [1, 2, 3]
        [10, 20, 30] [0, 0, 0] demoWorld).2.2).filter
          (fun e => e.call.isEnqueueWriteBuffer)).map (fun e => e.resp.err)
      = [CL_OUT_OF_RESOURCES, CL_OUT_OF_RESOURCES] ∧
    (runVectorAdd writeFailsDriver demoSession [1, 2, 3] [10, 20, 30] [0, 0, 0]
      demoWorld).2.1 = [-2, -2, -2] := by
  decide

/-- Claim C5, the code at the failing input: the platform lookup succeeds and both device
lookups fail, yet init returns true and goes on to create a context and a command queue
for the null device. -/
theorem init_true_without_device :
    (init noDeviceDriver OpenCLBridge.new World.boot).1 = true ∧
    ((init noDeviceDriver OpenCLBridge.new World.boot).2.2.trace.map
        (fun e => (e.call, e.resp.err))) =
      [ (Call.clGetPlatformIDs 1 0, CL_SUCCESS),
        (Call.clGetDeviceIDs 1 CL_DEVICE_TYPE_GPU 1 0, CL_DEVICE_NOT_FOUND),
        (Call.clGetDeviceIDs 1 CL_DEVICE_TYPE_CPU 1 0, CL_DEVICE_NOT_FOUND),
        (Call.clGetDeviceInfo 0 CL_DEVICE_NAME 128, CL_SUCCESS),
        (Call.clCreateContext 1 0, CL_SUCCESS),
        (Call.clCreateCommandQueue 4 0 0, CL_SUCCESS) ] ∧
    (init noDeviceDriver OpenCLBridge.new World.boot).2.1.device_id = 0 := by
  decide

/-- Claim C6, the code at the failing input: the driver rejects context creation (or
queue creation) with an error code and a null handle, yet init returns true and stores
the null handle. -/
theorem init_true_without_context :
    (init noContextDriver OpenCLBridge.new World.boot).1 = true ∧
    (init noContextDriver OpenCLBridge.new World.boot).2.1.context = 0 ∧
    (((init noContextDriver OpenCLBridge.new World.boot).2.2.trace.filter
        (fun e => e.call.isCreateContext)).map (fun e => (e.resp.err, e.resp.handle)))
      = [(CL_OUT_OF_HOST_MEMORY, 0)] ∧
    (init noQueueDriver OpenCLBridge.new World.boot).1 = true ∧
    (init noQueueDriver OpenCLBridge.new World.boot).2.1.command_queue = 0 ∧
    (((init noQueueDriver OpenCLBridge.new World.boot).2.2.trace.filter
        (fun e => e.call.isCreateCommandQueue)).map (fun e => (e.resp.err, e.resp.handle)))
      = [(CL_OUT_OF_HOST_MEMORY, 0)] := by
  decide

end Faults



end CLBridge
